import Mathlib

/-!
Shallow embedding of the Resource Sampling & Adaptive Presentation Engine of
resource_monitor.py: the CPU delta estimator, the color mapper, the settings
mutators with synchronous persistence, and the registry-based autostart
manager.  Machine floats of the source are modelled by exact rationals, the
unbounded Python integers by Lean integers, and the OS calls by explicit
input parameters: an OsSample carries both the success flag of GetSystemTimes
and the counter values it would deliver, GPUtil.getGPUs() is modelled by the
optional load of the first device, and GlobalMemoryStatusEx by the optional
dwMemoryLoad value.
-/

namespace ResourceMonitor

/-- Python int() applied to a rational: truncation toward zero
(for nonnegative arguments this is the floor). -/
def pyInt (q : ℚ) : ℤ := if 0 ≤ q then ⌊q⌋ else -⌊-q⌋

/-- An RGB triple as produced by interpolate_color (r, g, b). -/
abbrev Rgb := ℤ × ℤ × ℤ

/-- interpolate_color: channel-wise r = int(c1[0] + (c2[0] - c1[0]) * t)
and likewise for g and b; the source then renders the triple as the string
rgb(r, g, b), which carries no further information. -/
def interpolate_color (c1 c2 : Rgb) (t : ℚ) : Rgb :=
  (pyInt ((c1.1 : ℚ) + ((c2.1 : ℚ) - (c1.1 : ℚ)) * t),
   pyInt ((c1.2.1 : ℚ) + ((c2.2.1 : ℚ) - (c1.2.1 : ℚ)) * t),
   pyInt ((c1.2.2 : ℚ) + ((c2.2.2 : ℚ) - (c1.2.2 : ℚ)) * t))

/-- The green anchor (0, 255, 0) of get_smooth_color_by_usage. -/
def green : Rgb := (0, 255, 0)

/-- The yellow anchor (255, 255, 0) of get_smooth_color_by_usage. -/
def yellow : Rgb := (255, 255, 0)

/-- The red anchor (255, 0, 0) of get_smooth_color_by_usage. -/
def red : Rgb := (255, 0, 0)

/-- get_smooth_color_by_usage: green→yellow for usage < 50 with t = usage/50,
yellow→red otherwise with t = (usage - 50)/50. -/
def get_smooth_color_by_usage (usage : ℚ) : Rgb :=
  if usage < 50 then interpolate_color green yellow (usage / 50)
  else interpolate_color yellow red ((usage - 50) / 50)

/-- One invocation of the Windows GetSystemTimes API: the success flag of the
call, and the (idle, kernel, user) cumulative 100ns counters it would deliver
on success (each the 64-bit combination of the two FILETIME halves, hence a
nonnegative integer). -/
structure OsSample where
  success : Bool
  idle : ℤ
  kernel : ℤ
  user : ℤ

/-- get_system_times: on API success the (idle, kernel, user) counter triple,
on failure the tuple (0, 0, 0) — no error value accompanies it. -/
def get_system_times (os : OsSample) : ℤ × ℤ × ℤ :=
  if os.success then (os.idle, os.kernel, os.user) else (0, 0, 0)

/-- The values persisted by save_settings into the QSettings store, keyed by
the stable names of load_settings/save_settings. -/
structure Settings where
  show_cpu : Bool
  show_gpu : Bool
  show_ram : Bool
  update_interval : ℤ
  font_size : ℤ
  window_width : ℤ
  window_height : ℤ
  background_opacity : ℤ
  text_opacity : ℤ
  color_mode : String
  window_x : ℤ
  window_y : ℤ
deriving DecidableEq

/-- The mutable fields of the ResourceMonitor widget that the core reads and
writes: the CPU estimator's previous sample, the in-memory settings fields,
the armed timer period, the window position delivered by self.x()/self.y(),
and the content of the QSettings store (field persisted). -/
structure MonitorState where
  prev_idle : ℤ
  prev_kernel : ℤ
  prev_user : ℤ
  show_cpu : Bool
  show_gpu : Bool
  show_ram : Bool
  update_interval : ℤ
  timer_interval : ℤ
  font_size : ℤ
  window_width : ℤ
  window_height : ℤ
  background_opacity : ℤ
  text_opacity : ℤ
  color_mode : String
  pos_x : ℤ
  pos_y : ℤ
  persisted : Settings
deriving DecidableEq

/-- The Settings object that save_settings would write from the current
in-memory fields (window_x/window_y come from the live position). -/
def currentSettings (s : MonitorState) : Settings where
  show_cpu := s.show_cpu
  show_gpu := s.show_gpu
  show_ram := s.show_ram
  update_interval := s.update_interval
  font_size := s.font_size
  window_width := s.window_width
  window_height := s.window_height
  background_opacity := s.background_opacity
  text_opacity := s.text_opacity
  color_mode := s.color_mode
  window_x := s.pos_x
  window_y := s.pos_y

/-- save_settings: synchronously writes every settings field into the
QSettings store. -/
def save_settings (s : MonitorState) : MonitorState :=
  { s with persisted := currentSettings s }

/-- The defaults of load_settings (first run, no stored keys). -/
def defaultSettings : Settings where
  show_cpu := true
  show_gpu := true
  show_ram := true
  update_interval := 2000
  font_size := 16
  window_width := 300
  window_height := 50
  background_opacity := 100
  text_opacity := 100
  color_mode := "System"
  window_x := 100
  window_y := 100

/-- get_cpu_usage: reads a fresh snapshot via get_system_times, forms the
diffs against the stored previous sample, unconditionally replaces the
previous sample, then returns 0.0 when total_diff == 0 and otherwise
100.0 * (1.0 - idle_diff / total_diff).  Returns the usage together with
the updated state. -/
def get_cpu_usage (s : MonitorState) (os : OsSample) : ℚ × MonitorState :=
  let t := get_system_times os
  let idle := t.1
  let kernel := t.2.1
  let user := t.2.2
  let idle_diff := idle - s.prev_idle
  let kernel_diff := kernel - s.prev_kernel
  let user_diff := user - s.prev_user
  let total_diff := kernel_diff + user_diff
  let s' := { s with prev_idle := idle, prev_kernel := kernel, prev_user := user }
  if total_diff = 0 then (0, s')
  else (100 * (1 - (idle_diff : ℚ) / (total_diff : ℚ)), s')

/-- get_ram_usage: dwMemoryLoad when GlobalMemoryStatusEx succeeds
(modelled as the optional input), 0.0 on failure. -/
def get_ram_usage (mem : Option ℕ) : ℚ :=
  match mem with
  | some load => (load : ℚ)
  | none => 0

/-- What update_metrics writes into one label on a tick: the empty string
(show-flag off), the literal GPU: N/A, or a formatted percentage value. -/
inductive MetricLabel where
  | blank
  | na
  | value (q : ℚ)
deriving DecidableEq

/-- The GPU branch of update_metrics: blank when show_gpu is false,
otherwise the first device's load * 100 when a GPU is present and the
GPU: N/A marker when GPUtil.getGPUs() returns an empty list.  The
parameter gpus is the load of the first device, if any. -/
def gpu_tick_label (show_gpu : Bool) (gpus : Option ℚ) : MetricLabel :=
  if show_gpu then
    match gpus with
    | some load => MetricLabel.value (load * 100)
    | none => MetricLabel.na
  else MetricLabel.blank

/-- update_metrics: per tick, CPU label (running the delta estimator and
updating its previous sample only when show_cpu is true), GPU label, RAM
label, and the state after the tick. -/
def update_metrics (os : OsSample) (gpus : Option ℚ) (mem : Option ℕ)
    (s : MonitorState) : MetricLabel × MetricLabel × MetricLabel × MonitorState :=
  let cpuPart :=
    if s.show_cpu then
      let r := get_cpu_usage s os
      (MetricLabel.value r.1, r.2)
    else (MetricLabel.blank, s)
  let gpuLabel := gpu_tick_label s.show_gpu gpus
  let ramLabel :=
    if s.show_ram then MetricLabel.value (get_ram_usage mem) else MetricLabel.blank
  (cpuPart.1, gpuLabel, ramLabel, cpuPart.2)

/-- check_gpu: at start-up, when GPUtil.getGPUs() is empty, sets show_gpu to
False, writes GPU: N/A into the label, and persists the settings via
save_settings; when a GPU is present it does nothing. -/
def check_gpu (gpus : Option ℚ) (s : MonitorState) : MonitorState :=
  match gpus with
  | some _ => s
  | none => save_settings { s with show_gpu := false }

/-- toggle_cpu: flips show_cpu, refreshes the labels via update_metrics,
then persists via save_settings. -/
def toggle_cpu (os : OsSample) (gpus : Option ℚ) (mem : Option ℕ)
    (s : MonitorState) : MonitorState :=
  save_settings (update_metrics os gpus mem { s with show_cpu := !s.show_cpu }).2.2.2

/-- toggle_gpu: flips show_gpu, refreshes the labels, then persists. -/
def toggle_gpu (os : OsSample) (gpus : Option ℚ) (mem : Option ℕ)
    (s : MonitorState) : MonitorState :=
  save_settings (update_metrics os gpus mem { s with show_gpu := !s.show_gpu }).2.2.2

/-- toggle_ram: flips show_ram, refreshes the labels, then persists. -/
def toggle_ram (os : OsSample) (gpus : Option ℚ) (mem : Option ℕ)
    (s : MonitorState) : MonitorState :=
  save_settings (update_metrics os gpus mem { s with show_ram := !s.show_ram }).2.2.2

/-- change_update_interval: stores the new interval, re-arms the timer with
it (timer.start), then persists.  It does not touch the prev_* fields. -/
def change_update_interval (interval : ℤ) (s : MonitorState) : MonitorState :=
  save_settings { s with update_interval := interval, timer_interval := interval }

/-- change_font_size: on dialog confirmation stores the new size and
persists; on cancel does nothing.  The parameter is the dialog result. -/
def change_font_size (dialog : Option ℤ) (s : MonitorState) : MonitorState :=
  match dialog with
  | some v => save_settings { s with font_size := v }
  | none => s

/-- change_width: on dialog confirmation stores the new width and persists. -/
def change_width (dialog : Option ℤ) (s : MonitorState) : MonitorState :=
  match dialog with
  | some v => save_settings { s with window_width := v }
  | none => s

/-- change_height: on dialog confirmation stores the new height and persists. -/
def change_height (dialog : Option ℤ) (s : MonitorState) : MonitorState :=
  match dialog with
  | some v => save_settings { s with window_height := v }
  | none => s

/-- change_background_opacity: on dialog confirmation (dialog range 0-100)
stores the new opacity and persists. -/
def change_background_opacity (dialog : Option ℤ) (s : MonitorState) : MonitorState :=
  match dialog with
  | some v => save_settings { s with background_opacity := v }
  | none => s

/-- change_text_opacity: on dialog confirmation (dialog range 0-100) stores
the new opacity and persists. -/
def change_text_opacity (dialog : Option ℤ) (s : MonitorState) : MonitorState :=
  match dialog with
  | some v => save_settings { s with text_opacity := v }
  | none => s

/-- change_color_mode: stores the chosen mode and persists. -/
def change_color_mode (mode : String) (s : MonitorState) : MonitorState :=
  save_settings { s with color_mode := mode }

/-- The registry value ResourceMonitor under the per-user Run key:
none when absent, some data when present. -/
abbrev Registry := Option String

/-- The per-user application directory and copied executable used by
add_to_startup: both exist after the call (makedirs / copyfile run only
when the target is missing, so the end state is the same either way). -/
structure AutostartFs where
  stable_dir : Bool
  stable_exe : Bool
deriving DecidableEq

/-- The stable executable path LOCALAPPDATA\ResourceMonitor\ResourceMonitor.exe. -/
def stable_exe_path (localappdata : String) : String :=
  localappdata ++ "\\ResourceMonitor\\ResourceMonitor.exe"

/-- The quoted path written as the registry value data. -/
def exe_for_reg (localappdata : String) : String :=
  "\"" ++ stable_exe_path localappdata ++ "\""

/-- add_to_startup: ensures the stable directory and copied executable
exist, then writes (SetValueEx — one value per name, overwriting) the quoted
stable path under the Run key.  The file_path argument only feeds the copy,
never the registry data. -/
def add_to_startup (localappdata : String) (_fs : AutostartFs) (_reg : Registry) :
    AutostartFs × Registry :=
  (⟨true, true⟩, some (exe_for_reg localappdata))

/-- The outcome remove_from_startup reports: the value was deleted, or it
was already absent (FileNotFoundError caught and printed as informational),
or some other OS exception occurred (never produced in this model, which
has no other failure mode). -/
inductive RemoveMsg where
  | removed
  | notFoundInfo
  | errorOther
deriving DecidableEq

/-- remove_from_startup: deletes the ResourceMonitor value when present;
when absent, DeleteValue raises FileNotFoundError, which is caught and
reported as informational. -/
def remove_from_startup (reg : Registry) : Registry × RemoveMsg :=
  match reg with
  | some _ => (none, RemoveMsg.removed)
  | none => (none, RemoveMsg.notFoundInfo)

/-- is_autostart_enabled: True when the value exists and its data is truthy
(a nonempty string), False when the data is empty or the value is absent. -/
def is_autostart_enabled (reg : Registry) : Bool :=
  match reg with
  | some v => if v = "" then false else true
  | none => false

/-- A concrete widget state: estimator seeded with zeros and every settings
field at its load_settings default, the store holding the same defaults. -/
def baseState : MonitorState where
  prev_idle := 0
  prev_kernel := 0
  prev_user := 0
  show_cpu := true
  show_gpu := true
  show_ram := true
  update_interval := 2000
  timer_interval := 2000
  font_size := 16
  window_width := 300
  window_height := 50
  background_opacity := 100
  text_opacity := 100
  color_mode := "System"
  pos_x := 100
  pos_y := 100
  persisted := defaultSettings

/-- The spec scenario's first snapshot (idle=1000, kernel=500, user=500)
stored as the previous sample. -/
def scenarioPrev : MonitorState :=
  { baseState with prev_idle := 1000, prev_kernel := 500, prev_user := 500 }

/-- The spec scenario's second snapshot (idle=1100, kernel=600, user=600). -/
def scenarioSnap : OsSample := ⟨true, 1100, 600, 600⟩

/-- A snapshot whose idle counter has wrapped below the previous sample. -/
def wrapSnap : OsSample := ⟨true, 900, 600, 600⟩

/-- A failed GetSystemTimes call (the counter fields are irrelevant). -/
def failSnap : OsSample := ⟨false, 1100, 600, 600⟩

/-- A previous sample (500, 500, 500) against which a failed call is read. -/
def failPrev : MonitorState :=
  { baseState with prev_idle := 500, prev_kernel := 500, prev_user := 500 }

/-- The persistence invariant: the QSettings store holds exactly the current
in-memory settings. -/
def persists_current (t : MonitorState) : Prop := t.persisted = currentSettings t

theorem pyInt_of_nonneg (q : ℚ) (h : 0 ≤ q) : pyInt q = ⌊q⌋ := if_pos h

theorem smooth_color_closed_form (p : ℚ) (h0 : 0 ≤ p) (h1 : p ≤ 100) :
    get_smooth_color_by_usage p =
      if p < 50 then (⌊(255:ℚ) * (p / 50)⌋, 255, 0)
      else (255, ⌊(255:ℚ) + (0 - 255) * ((p - 50) / 50)⌋, 0) := by
  unfold get_smooth_color_by_usage interpolate_color green yellow red
  split_ifs with hp
  · have a1 : (0:ℚ) ≤ (((0:ℤ):ℚ)) + ((((255:ℤ):ℚ)) - (((0:ℤ):ℚ))) * (p / 50) := by
      have h : (0:ℚ) ≤ p / 50 := by positivity
      push_cast
      nlinarith
    rw [pyInt_of_nonneg _ a1]
    norm_num [pyInt]
  · have hb : (p - 50) / 50 ≤ 1 := by linarith
    have hb0 : (0:ℚ) ≤ (p - 50) / 50 := by
      have h : (0:ℚ) ≤ p - 50 := by linarith
      positivity
    have a2 : (0:ℚ) ≤ (((255:ℤ):ℚ)) + ((((0:ℤ):ℚ)) - (((255:ℤ):ℚ))) * ((p - 50) / 50) := by
      push_cast
      nlinarith
    rw [pyInt_of_nonneg _ a2]
    norm_num [pyInt]

/-- Claim C1: for every stored previous sample and every successful new
snapshot, get_cpu_usage returns exactly 0.0 when total_diff is zero (no
division happens) and 100 * (1 - idle_diff / total_diff) otherwise; the
start-up scenario of previous sample (1000, 500, 500) followed by snapshot
(1100, 600, 600) yields exactly 50.0. -/
theorem get_cpu_usage_formula (s : MonitorState) (os : OsSample)
    (hs : os.success = true) :
    ((os.kernel - s.prev_kernel) + (os.user - s.prev_user) = 0 →
      (get_cpu_usage s os).1 = 0) ∧
    ((os.kernel - s.prev_kernel) + (os.user - s.prev_user) ≠ 0 →
      (get_cpu_usage s os).1 =
        100 * (1 - ((os.idle - s.prev_idle : ℤ) : ℚ) /
          (((os.kernel - s.prev_kernel) + (os.user - s.prev_user) : ℤ) : ℚ))) ∧
    (get_cpu_usage scenarioPrev scenarioSnap).1 = 50 := by
  refine ⟨?_, ?_, ?_⟩
  · intro h
    simp [get_cpu_usage, get_system_times, hs, h]
  · intro h
    simp [get_cpu_usage, get_system_times, hs, h]
  · norm_num [get_cpu_usage, get_system_times, scenarioPrev, scenarioSnap, baseState]

theorem get_cpu_usage_formula_witness :
    scenarioSnap.success = true ∧ (get_cpu_usage scenarioPrev scenarioSnap).1 = 50 :=
  ⟨rfl, (get_cpu_usage_formula scenarioPrev scenarioSnap rfl).2.2⟩

/-- Claim C2: the claim (a negative counter diff yields 0.0 and the result
is clamped to [0,100]) is refuted by the code: with previous sample
(1000, 500, 500) and a wrapped snapshot (900, 600, 600), idle_diff is -100,
total_diff is 200, and get_cpu_usage returns 150.0 — above 100 and nonzero,
contradicting the function's own docstring range of 0..100. -/
theorem get_cpu_usage_wrap_unclamped :
    (get_cpu_usage scenarioPrev wrapSnap).1 = 150 ∧
    ¬ (get_cpu_usage scenarioPrev wrapSnap).1 ≤ 100 ∧
    (get_cpu_usage scenarioPrev wrapSnap).1 ≠ 0 := by
  norm_num [get_cpu_usage, get_system_times, scenarioPrev, baseState, wrapSnap]

/-- Claim C3: for every percent in [0,100] each channel of
get_smooth_color_by_usage lies in [0,255], and the anchors hold exactly:
0 maps to (0,255,0), 50 to (255,255,0) and 100 to (255,0,0). -/
theorem color_channels_and_anchors (p : ℚ) (h0 : 0 ≤ p) (h1 : p ≤ 100) :
    (0 ≤ (get_smooth_color_by_usage p).1 ∧ (get_smooth_color_by_usage p).1 ≤ 255) ∧
    (0 ≤ (get_smooth_color_by_usage p).2.1 ∧ (get_smooth_color_by_usage p).2.1 ≤ 255) ∧
    (0 ≤ (get_smooth_color_by_usage p).2.2 ∧ (get_smooth_color_by_usage p).2.2 ≤ 255) ∧
    get_smooth_color_by_usage 0 = (0, 255, 0) ∧
    get_smooth_color_by_usage 50 = (255, 255, 0) ∧
    get_smooth_color_by_usage 100 = (255, 0, 0) := by
  have anch0 : get_smooth_color_by_usage 0 = (0, 255, 0) := by
    norm_num [get_smooth_color_by_usage, interpolate_color, pyInt, green, yellow, red]
  have anch50 : get_smooth_color_by_usage 50 = (255, 255, 0) := by
    norm_num [get_smooth_color_by_usage, interpolate_color, pyInt, green, yellow, red]
  have anch100 : get_smooth_color_by_usage 100 = (255, 0, 0) := by
    norm_num [get_smooth_color_by_usage, interpolate_color, pyInt, green, yellow, red]
  rw [smooth_color_closed_form p h0 h1]
  by_cases hp : p < 50
  · rw [if_pos hp]
    refine ⟨⟨?_, ?_⟩, ⟨by norm_num, by norm_num⟩, ⟨by norm_num, by norm_num⟩,
      anch0, anch50, anch100⟩
    · exact Int.floor_nonneg.mpr (by positivity)
    · have hle : (255:ℚ) * (p / 50) ≤ 255 := by nlinarith
      have hfl := (Int.floor_le ((255:ℚ) * (p / 50))).trans hle
      exact_mod_cast hfl
  · rw [if_neg hp]
    push_neg at hp
    refine ⟨⟨by norm_num, by norm_num⟩, ⟨?_, ?_⟩, ⟨by norm_num, by norm_num⟩,
      anch0, anch50, anch100⟩
    · refine Int.floor_nonneg.mpr ?_
      have hb : (p - 50) / 50 ≤ 1 := by linarith
      nlinarith
    · have hb0 : (0:ℚ) ≤ (p - 50) / 50 := by
        have h : (0:ℚ) ≤ p - 50 := by linarith
        positivity
      have hle : (255:ℚ) + (0 - 255) * ((p - 50) / 50) ≤ 255 := by nlinarith
      have hfl := (Int.floor_le ((255:ℚ) + (0 - 255) * ((p - 50) / 50))).trans hle
      exact_mod_cast hfl

theorem color_channels_and_anchors_witness :
    (0 ≤ (get_smooth_color_by_usage 25).1 ∧ (get_smooth_color_by_usage 25).1 ≤ 255) ∧
    (0 ≤ (get_smooth_color_by_usage 25).2.1 ∧ (get_smooth_color_by_usage 25).2.1 ≤ 255) ∧
    (0 ≤ (get_smooth_color_by_usage 25).2.2 ∧ (get_smooth_color_by_usage 25).2.2 ≤ 255) ∧
    get_smooth_color_by_usage 0 = (0, 255, 0) ∧
    get_smooth_color_by_usage 50 = (255, 255, 0) ∧
    get_smooth_color_by_usage 100 = (255, 0, 0) :=
  color_channels_and_anchors 25 (by norm_num) (by norm_num)

/-- Claim C4, counterexample: at percent 7 the red channel of
get_smooth_color_by_usage is 35, the truncation of 35.7, while the nearest
integer round(c1 + (c2 - c1) * t) demanded by the claim is 36. -/
theorem interpolation_truncates_not_rounds :
    (get_smooth_color_by_usage 7).1 ≠
      round ((0:ℚ) + ((255:ℚ) - (0:ℚ)) * (7 / 50)) := by
  norm_num [get_smooth_color_by_usage, interpolate_color, pyInt, green, yellow, red,
    round_eq]

/-- Claim C4 as amended: for every percent in [0,100] each channel equals
the floor (Python int(), truncation toward zero — the interpolants are
nonnegative here) of c1 + (c2 - c1) * t, with t = percent/50 on the
green→yellow segment and t = (percent - 50)/50 on the yellow→red segment,
not the nearest integer. -/
theorem interpolation_channel_floor (p : ℚ) (h0 : 0 ≤ p) (h1 : p ≤ 100) :
    (p < 50 → get_smooth_color_by_usage p =
      (⌊(0:ℚ) + (255 - 0) * (p / 50)⌋, ⌊(255:ℚ) + (255 - 255) * (p / 50)⌋,
        ⌊(0:ℚ) + (0 - 0) * (p / 50)⌋)) ∧
    (¬ p < 50 → get_smooth_color_by_usage p =
      (⌊(255:ℚ) + (255 - 255) * ((p - 50) / 50)⌋, ⌊(255:ℚ) + (0 - 255) * ((p - 50) / 50)⌋,
        ⌊(0:ℚ) + (0 - 0) * ((p - 50) / 50)⌋)) := by
  have hmain := smooth_color_closed_form p h0 h1
  constructor
  · intro hp
    rw [if_pos hp] at hmain
    rw [hmain]
    norm_num
  · intro hp
    rw [if_neg hp] at hmain
    rw [hmain]
    norm_num

theorem interpolation_channel_floor_witness :
    get_smooth_color_by_usage 7 = (35, 255, 0) := by
  have h := (interpolation_channel_floor 7 (by norm_num) (by norm_num)).1 (by norm_num)
  rw [h]
  norm_num

/-- Claim C5, counterexample: starting from baseState (show_gpu True, the
stored preference True), check_gpu with no GPU present sets show_gpu to
False and persists that False into the store, and the next tick's GPU
output is identical to the output under a user-toggled-off flag — the
stored preference is overwritten and the distinction lost. -/
theorem gpu_absent_overwrites_preference :
    baseState.show_gpu = true ∧
    baseState.persisted.show_gpu = true ∧
    (check_gpu none baseState).show_gpu = false ∧
    (check_gpu none baseState).persisted.show_gpu = false ∧
    gpu_tick_label (check_gpu none baseState).show_gpu none =
      gpu_tick_label false none := by
  refine ⟨rfl, rfl, rfl, rfl, rfl⟩

/-- Claim C5 as amended: on a tick with show_gpu still True and no GPU
found, update_metrics emits the distinguished GPU: N/A marker, which
differs from the blank of a user-toggled-off flag and from every numeric
load value; but check_gpu at start-up reacts to GPU absence by setting
show_gpu to False and persisting it, so the absence does overwrite the
stored preference and later ticks are indistinguishable from toggled-off. -/
theorem gpu_unavailable_marker (s : MonitorState) :
    gpu_tick_label true none = MetricLabel.na ∧
    gpu_tick_label false none = MetricLabel.blank ∧
    MetricLabel.na ≠ MetricLabel.blank ∧
    (∀ q : ℚ, gpu_tick_label true (some q) ≠ MetricLabel.na) ∧
    (check_gpu none s).show_gpu = false ∧
    (check_gpu none s).persisted.show_gpu = false := by
  refine ⟨rfl, rfl, by simp, fun q => by simp [gpu_tick_label], rfl, rfl⟩

/-- Claim C6, counterexample: with previous sample (500, 500, 500), a failed
GetSystemTimes call makes get_cpu_usage return 50.0, not the degraded 0.0
the claim requires. -/
theorem cpu_failure_not_zero :
    (get_cpu_usage failPrev failSnap).1 = 50 ∧ (50 : ℚ) ≠ 0 := by
  norm_num [get_cpu_usage, get_system_times, failPrev, baseState, failSnap]

/-- Claim C6 as amended: when the GetSystemTimes call fails,
get_system_times returns the zero-valued tuple (0, 0, 0) with no
accompanying error value, and get_cpu_usage does not crash (it returns 0.0
when the resulting total_diff is zero) but in general does not degrade to
0%: with previous sample (pi, pk, pu) and pk + pu nonzero it returns
100 * (1 - pi / (pk + pu)), and it zeroes the stored previous sample. -/
theorem get_system_times_failure (s : MonitorState) (os : OsSample)
    (hf : os.success = false) :
    get_system_times os = (0, 0, 0) ∧
    (s.prev_kernel + s.prev_user = 0 → (get_cpu_usage s os).1 = 0) ∧
    (s.prev_kernel + s.prev_user ≠ 0 →
      (get_cpu_usage s os).1 =
        100 * (1 - (s.prev_idle : ℚ) / ((s.prev_kernel : ℚ) + (s.prev_user : ℚ)))) ∧
    (get_cpu_usage s os).2.prev_idle = 0 ∧
    (get_cpu_usage s os).2.prev_kernel = 0 ∧
    (get_cpu_usage s os).2.prev_user = 0 := by
  have ht : get_system_times os = (0, 0, 0) := by simp [get_system_times, hf]
  refine ⟨ht, ?_, ?_, ?_, ?_, ?_⟩
  · intro h
    have hz : (-s.prev_kernel + -s.prev_user : ℤ) = 0 := by omega
    simp [get_cpu_usage, ht, hz]
  · intro h
    have hz : (-s.prev_kernel + -s.prev_user : ℤ) ≠ 0 := by omega
    have e : -(s.prev_idle : ℚ) / (-(s.prev_kernel : ℚ) + -(s.prev_user : ℚ)) =
        (s.prev_idle : ℚ) / ((s.prev_kernel : ℚ) + (s.prev_user : ℚ)) := by
      rw [show (-(s.prev_kernel : ℚ) + -(s.prev_user : ℚ)) =
          -((s.prev_kernel : ℚ) + (s.prev_user : ℚ)) from by ring, neg_div_neg_eq]
    simp [get_cpu_usage, ht, hz]
    rw [e]
  · simp [get_cpu_usage, ht, apply_ite]
  · simp [get_cpu_usage, ht, apply_ite]
  · simp [get_cpu_usage, ht, apply_ite]

theorem get_system_times_failure_witness :
    failSnap.success = false ∧
    (get_cpu_usage failPrev failSnap).1 =
      100 * (1 - (failPrev.prev_idle : ℚ) /
        ((failPrev.prev_kernel : ℚ) + (failPrev.prev_user : ℚ))) :=
  ⟨rfl, (get_system_times_failure failPrev failSnap rfl).2.2.1 (by decide)⟩

/-- Claim C7: autostart is idempotent — enabling twice leaves the same end
state as enabling once (one registry value, no duplicate), with
is_autostart_enabled True; disabling twice leaves is_autostart_enabled
False, and the second disable reports the informational value-not-found
outcome, never the error outcome. -/
theorem autostart_idempotent (l : String) (fs : AutostartFs) (reg : Registry) :
    add_to_startup l (add_to_startup l fs reg).1 (add_to_startup l fs reg).2 =
      add_to_startup l fs reg ∧
    is_autostart_enabled
      (add_to_startup l (add_to_startup l fs reg).1 (add_to_startup l fs reg).2).2 =
        true ∧
    is_autostart_enabled (remove_from_startup (remove_from_startup reg).1).1 = false ∧
    (remove_from_startup (remove_from_startup reg).1).2 = RemoveMsg.notFoundInfo ∧
    (remove_from_startup (remove_from_startup reg).1).2 ≠ RemoveMsg.errorOther := by
  have hne : exe_for_reg l ≠ "" := by
    intro hc
    have hlen := congrArg String.length hc
    rw [exe_for_reg, String.length_append, String.length_append] at hlen
    have h1 : ("\"" : String).length = 1 := rfl
    have h2 : ("" : String).length = 0 := rfl
    omega
  refine ⟨rfl, ?_, ?_, ?_, ?_⟩
  · simp [add_to_startup, is_autostart_enabled, hne]
  · cases reg <;> rfl
  · cases reg <;> rfl
  · cases reg <;> simp [remove_from_startup]

/-- Claim C8: every settings mutator — the three show-flag toggles, interval
change, font size, width, height, both opacities and color mode — ends with
the store holding exactly the current in-memory settings object: the
mutation is persisted synchronously, whole-object, with no deferral. -/
theorem settings_mutations_persist (os : OsSample) (gpus : Option ℚ) (mem : Option ℕ)
    (s : MonitorState) (v : ℤ) (mode : String) :
    persists_current (toggle_cpu os gpus mem s) ∧
    persists_current (toggle_gpu os gpus mem s) ∧
    persists_current (toggle_ram os gpus mem s) ∧
    persists_current (change_update_interval v s) ∧
    persists_current (change_font_size (some v) s) ∧
    persists_current (change_width (some v) s) ∧
    persists_current (change_height (some v) s) ∧
    persists_current (change_background_opacity (some v) s) ∧
    persists_current (change_text_opacity (some v) s) ∧
    persists_current (change_color_mode mode s) :=
  ⟨rfl, rfl, rfl, rfl, rfl, rfl, rfl, rfl, rfl, rfl⟩

/-- Claim C9: change_update_interval re-arms the timer with the new period
and stores it, and leaves the CPU estimator's previous-sample fields
prev_idle, prev_kernel and prev_user untouched. -/
theorem interval_change_keeps_estimator_state (interval : ℤ) (s : MonitorState) :
    (change_update_interval interval s).prev_idle = s.prev_idle ∧
    (change_update_interval interval s).prev_kernel = s.prev_kernel ∧
    (change_update_interval interval s).prev_user = s.prev_user ∧
    (change_update_interval interval s).timer_interval = interval ∧
    (change_update_interval interval s).update_interval = interval :=
  ⟨rfl, rfl, rfl, rfl, rfl⟩

/-- Claim C10: a registry value holding the empty (falsy) string makes
is_autostart_enabled report False, exactly as a missing value does. -/
theorem empty_registry_value_reports_disabled :
    is_autostart_enabled (some "") = false ∧ is_autostart_enabled none = false :=
  ⟨rfl, rfl⟩

end ResourceMonitor
